import Mathlib

/-!
# Verification of the `useHolocron` voice-interaction hook

Shallow embedding of `src/hooks/useHolocron.tsx`: a client-side voice
interaction controller (record an utterance, upload it, receive a synthesized
audio reply, play it back) for a browser-like platform and a native platform.

The hook's mutable cell state (the React `useState`/`useRef` cells) is modelled
as the record `Holocron.HState`, extended with ghost fields that record the
externally observable effects (capture sessions acquired, stop calls issued,
loaded playback sessions, persisted cache files, network calls, logged errors).
Each exported command (`startRecording`, `stopRecording`) and the asynchronous
completion of an in-flight `sendToAI` call is a state-transition function; the
outcomes of the external device/transport/filesystem calls are inputs
(environment records), since those collaborators are outside the module.

`await sendToAI(uri)` suspends at the transport boundary, so a stop that
reaches `setIsResponding(true)` leaves a pending send in the state; a separate
`resolveSend` step completes it (running the rest of the `sendToAI` body and
its `finally` clause).  This makes interleavings such as "startRecording while
a previous interaction still awaits its reply" expressible, exactly as they can
occur in the single-threaded cooperative model of the hook.
-/

set_option autoImplicit false

namespace Holocron

/-- `Platform.OS`: the code only distinguishes `'web'` from everything else. -/
inductive PlatformOS where
  | web
  | native
  deriving Repr, DecidableEq

/-- The failures that can be thrown inside the hook's try-blocks, one per
throw-site / external call that can reject. -/
inductive HError where
  | captureUnavailable
  | permissionRequestFailed
  | permissionDenied
  | audioModeFailed
  | captureStartFailed
  | stopFailed
  | noRecordingURI
  | statusFailed
  | incompleteRecording
  | configurationError
  | fetchFailed
  | transportError (status : Nat)
  | decodeFailed
  | writeFailed
  | unloadFailed
  | createSoundFailed
  | playbackFailed
  deriving Repr, DecidableEq

/-- The hook's state.  The first six fields are the React cells
(`isRecording`, `isResponding`, `isAudioAvailable`, `recordingRef.current`,
`soundRef.current`) plus the multiset of in-flight `sendToAI` calls; the
remaining fields are ghost observables: `nextHandle` allocates fresh session
handles, `capturesAcquired` records every `Recording.createAsync` success,
`stopCalls` records every `stopAndUnloadAsync` invocation (by handle),
`loadedSounds` the currently loaded playback sessions, `cache` the persisted
files (path, bytes), `networkCalls` the number of POSTs attempted, and
`errLog` the errors passed to `console.error` by the catch blocks. -/
structure HState where
  isRecording : Bool
  isResponding : Bool
  isAudioAvailable : Bool
  recordingRef : Option Nat
  soundRef : Option Nat
  pendingSends : List String
  nextHandle : Nat
  capturesAcquired : List Nat
  stopCalls : List Nat
  loadedSounds : List Nat
  cache : List (String × List Nat)
  networkCalls : Nat
  errLog : List HError
  deriving Repr, DecidableEq

/-- Initial state, after the availability probe resolved to `avail`
(`permission.granted`, or `false` if the permission check threw). -/
def initState (avail : Bool) : HState :=
  { isRecording := false
    isResponding := false
    isAudioAvailable := avail
    recordingRef := none
    soundRef := none
    pendingSends := []
    nextHandle := 0
    capturesAcquired := []
    stopCalls := []
    loadedSounds := []
    cache := []
    networkCalls := 0
    errLog := [] }

/-- Outcomes of the external calls made by `startRecording`. -/
structure StartEnv where
  permissionThrows : Bool
  permissionGranted : Bool
  setModeThrows : Bool
  createThrows : Bool
  deriving Repr, DecidableEq

/-- Outcomes of the external calls made by `stopRecording`:
`stopAndUnloadAsync` rejecting, the `getURI()` result, `getStatusAsync`
rejecting, and `status.isDoneRecording`. -/
structure StopEnv where
  stopUnloadThrows : Bool
  uri : Option String
  statusThrows : Bool
  isDoneRecording : Bool
  deriving Repr, DecidableEq

/-- Outcomes of the external calls made by `sendToAI`: the
`EXPO_PUBLIC_API_URL` configuration value, the web `fetch`/`blob` step, the
`axios.post` result (success with the reply bytes, or rejection with a
status), the base64 decode, the cache-file write, unloading the previous
sound, `Sound.createAsync`, the playback audio-mode call and `playAsync`. -/
structure SendEnv where
  apiUrl : Option String
  fetchThrows : Bool
  transportOk : Bool
  status : Nat
  responseBytes : List Nat
  decodeThrows : Bool
  writeThrows : Bool
  unloadThrows : Bool
  createSoundThrows : Bool
  setModeThrows : Bool
  playThrows : Bool
  deriving Repr, DecidableEq

/-- The fixed cache path `FileSystem.cacheDirectory + 'response.mp3'`. -/
def cacheDirectory : String := "file:///cache/"

/-- The single persisted artifact path used by the native playback branch. -/
def cachePath : String := cacheDirectory ++ "response.mp3"

/-- `recordingRef.current = recording; setIsRecording(true)` after a
successful `Audio.Recording.createAsync`: a fresh capture session is
acquired, stored in the ref, and the capturing flag is raised. -/
def beginCapture (s : HState) : HState :=
  { s with recordingRef := some s.nextHandle
           capturesAcquired := s.capturesAcquired ++ [s.nextHandle]
           nextHandle := s.nextHandle + 1
           isRecording := true }

/-- The try-block of `startRecording` (lines 43-67): gate on
`isAudioAvailable`, re-request permission, set the recording audio mode,
create the recording.  Returns the state reached together with the error
thrown, if any. -/
def startBody (env : StartEnv) (s : HState) : HState × Option HError :=
  if s.isAudioAvailable = false then (s, some .captureUnavailable)
  else if env.permissionThrows = true then (s, some .permissionRequestFailed)
  else if env.permissionGranted = false then (s, some .permissionDenied)
  else if env.setModeThrows = true then (s, some .audioModeFailed)
  else if env.createThrows = true then (s, some .captureStartFailed)
  else (beginCapture s, none)

/-- `startRecording` (lines 42-71): the try-block wrapped in the catch that
logs `Failed to start recording` and swallows the error. -/
def startRecording (env : StartEnv) (s : HState) : HState :=
  match startBody env s with
  | (s', none) => s'
  | (s', some e) => { s' with errLog := s'.errLog ++ [e] }

/-- State after `await recordingRef.current.stopAndUnloadAsync()` has been
invoked on handle `k` (whether or not it rejects): capturing already cleared,
the stop call recorded. -/
def stopAttempt (s : HState) (k : Nat) : HState :=
  { s with isRecording := false
           stopCalls := s.stopCalls ++ [k] }

/-- `setIsResponding(true); await sendToAI(uri)`: the awaiting-reply flag is
raised and the send is now in flight. -/
def awaitReply (s : HState) (uri : String) : HState :=
  { s with isResponding := true
           pendingSends := s.pendingSends ++ [uri] }

/-- The try-block of `stopRecording` (lines 74-96): clear `isRecording`
first, return silently if no recording ref, stop-and-unload, read the URI,
on non-web platforms validate `status.isDoneRecording`, then raise
`isResponding` and start `sendToAI`. -/
def stopBody (p : PlatformOS) (env : StopEnv) (s : HState) : HState × Option HError :=
  match s.recordingRef with
  | none => ({ s with isRecording := false }, none)
  | some k =>
    if env.stopUnloadThrows = true then (stopAttempt s k, some .stopFailed)
    else match env.uri with
      | none => (stopAttempt s k, some .noRecordingURI)
      | some uri =>
        if p = PlatformOS.web then (awaitReply (stopAttempt s k) uri, none)
        else if env.statusThrows = true then (stopAttempt s k, some .statusFailed)
        else if env.isDoneRecording = false then (stopAttempt s k, some .incompleteRecording)
        else (awaitReply (stopAttempt s k) uri, none)

/-- `stopRecording` (lines 73-101): the try-block wrapped in the catch that
logs `Failed to stop recording` and clears `isResponding`. -/
def stopRecording (p : PlatformOS) (env : StopEnv) (s : HState) : HState :=
  match stopBody p env s with
  | (s', none) => s'
  | (s', some e) => { s' with isResponding := false, errLog := s'.errLog ++ [e] }

/-- `FileSystem.writeAsStringAsync`: (over)write the file at `path`. -/
def writeFile (path : String) (bytes : List Nat) (cache : List (String × List Nat)) :
    List (String × List Nat) :=
  (path, bytes) :: cache.filter (fun e => e.1 != path)

/-- State after `Audio.Sound.createAsync` succeeded: a fresh playback session
is loaded and stored in `soundRef`. -/
def playState (s : HState) : HState :=
  { s with loadedSounds := s.loadedSounds ++ [s.nextHandle]
           soundRef := some s.nextHandle
           nextHandle := s.nextHandle + 1 }

/-- Tail of the native playback branch (lines 157-174): create the new sound
(`shouldPlay: true`), store it in `soundRef`, set the playback audio mode,
call `playAsync`. -/
def finishPlayback (env : SendEnv) (s : HState) : HState × Option HError :=
  if env.createSoundThrows = true then (s, some .createSoundFailed)
  else if env.setModeThrows = true then (playState s, some .audioModeFailed)
  else if env.playThrows = true then (playState s, some .playbackFailed)
  else (playState s, none)

/-- Native playback preparation after the cache write (lines 153-162): unload
the previously held sound, if any, then create and play the new one. -/
def sendPlayNative (env : SendEnv) (s : HState) : HState × Option HError :=
  match s.soundRef with
  | some h =>
    if env.unloadThrows = true then (s, some .unloadFailed)
    else finishPlayback env { s with loadedSounds := s.loadedSounds.erase h }
  | none => finishPlayback env s

/-- `sendToAI` from the `axios.post` call onwards (lines 127-175): transport
failure rejects; on web the reply is wrapped in an object URL and played with
no persistence; on native it is base64-decoded, written to the fixed cache
path, and played via `sendPlayNative`. -/
def sendPost (p : PlatformOS) (env : SendEnv) (s : HState) : HState × Option HError :=
  if env.transportOk = false then (s, some (HError.transportError env.status))
  else if p = PlatformOS.web then
    if env.playThrows = true then (s, some .playbackFailed) else (s, none)
  else if env.decodeThrows = true then (s, some .decodeFailed)
  else if env.writeThrows = true then (s, some .writeFailed)
  else sendPlayNative env { s with cache := writeFile cachePath env.responseBytes s.cache }

/-- The try-block of `sendToAI` (lines 104-175): require the configured API
URL before anything else, build the multipart form (on web by fetching the
blob from `uri`), then POST and handle the reply.  `networkCalls` counts the
`axios.post` attempts. -/
def sendBody (p : PlatformOS) (env : SendEnv) (uri : String) (s : HState) :
    HState × Option HError :=
  match env.apiUrl with
  | none => (s, some .configurationError)
  | some _ =>
    if p = PlatformOS.web ∧ env.fetchThrows = true then (s, some .fetchFailed)
    else sendPost p env { s with networkCalls := s.networkCalls + 1 }

/-- `sendToAI` (lines 103-185): the try-block wrapped in the catch that logs
`Failed to communicate with AI` (plus the axios status/body diagnostics) and
the `finally` that always clears `isResponding`.  The `uri` argument is the
finalized recording URI; it only matters through the web `fetch` step, whose
outcome is in the environment. -/
def sendToAI (p : PlatformOS) (env : SendEnv) (uri : String) (s : HState) : HState :=
  match sendBody p env uri s with
  | (s', none) => { s' with isResponding := false }
  | (s', some e) => { s' with isResponding := false, errLog := s'.errLog ++ [e] }

/-- Completion of the `i`-th in-flight `sendToAI` call: it leaves the pending
multiset and its body (including the `finally`) runs.  If no such call is in
flight, nothing happens.  This step runs the body without interleaving, i.e.
it models a send whose awaits all resumed with nothing scheduled in between;
the suspension point inside the native playback phase (at
`Audio.Sound.createAsync`, line 157) is modelled separately by
`suspendAtCreate` / `completeCreate` below, which expose the interleavings
an atomic completion hides. -/
def resolveSend (p : PlatformOS) (env : SendEnv) (i : Nat) (s : HState) : HState :=
  match s.pendingSends[i]? with
  | none => s
  | some uri => sendToAI p env uri { s with pendingSends := s.pendingSends.eraseIdx i }

/-- Reachable states of the hook: from the post-probe initial state, by the
two exported commands and by completion of in-flight sends, with arbitrary
outcomes of the external collaborators. -/
inductive Reachable (p : PlatformOS) (avail : Bool) : HState → Prop where
  | init : Reachable p avail (initState avail)
  | start (env : StartEnv) {s : HState} :
      Reachable p avail s → Reachable p avail (startRecording env s)
  | stop (env : StopEnv) {s : HState} :
      Reachable p avail s → Reachable p avail (stopRecording p env s)
  | send (env : SendEnv) (i : Nat) {s : HState} :
      Reachable p avail s → Reachable p avail (resolveSend p env i s)

/-- Reachable states under sequential use: as `Reachable`, but
`startRecording` is only invoked while no reply is awaited (interactions do
not overlap). -/
inductive ReachableSeq (p : PlatformOS) (avail : Bool) : HState → Prop where
  | init : ReachableSeq p avail (initState avail)
  | start (env : StartEnv) {s : HState} :
      ReachableSeq p avail s → s.isResponding = false →
      ReachableSeq p avail (startRecording env s)
  | stop (env : StopEnv) {s : HState} :
      ReachableSeq p avail s → ReachableSeq p avail (stopRecording p env s)
  | send (env : SendEnv) (i : Nat) {s : HState} :
      ReachableSeq p avail s → ReachableSeq p avail (resolveSend p env i s)

/-! ## Suspension inside the native playback phase

`sendToAI` suspends at every `await`.  In particular, on the native branch a
send can be parked at `await Audio.Sound.createAsync(...)` (line 157), after
the `if (soundRef.current)` check and unload (lines 153-155) but before
`soundRef.current = sound` (line 162).  While it is parked, the hook can run
other commands and other sends.  `suspendAtCreate` is the state reached by a
send whose stages up to the unload all succeeded and which is now parked
there; `completeCreate` is the rest of its body (createAsync resolves and the
new sound is loaded, the synchronous ref assignment, the audio-mode call,
`playAsync`, the catch log and the `finally`).  A count of parked sends is
carried alongside the state in the fine reachability relations below. -/

/-- The native `sendToAI` body run from the start up to the suspension at
`Audio.Sound.createAsync`, for the `i`-th in-flight send, with every stage up
to there succeeding: the POST was made, the reply bytes were decoded and
written to the fixed cache path, and the previously held sound, if any, was
unloaded.  `isResponding` is untouched: the `finally` has not run yet. -/
def suspendAtCreate (env : SendEnv) (i : Nat) (s : HState) : HState :=
  { s with pendingSends := s.pendingSends.eraseIdx i
           networkCalls := s.networkCalls + 1
           cache := writeFile cachePath env.responseBytes s.cache
           loadedSounds := match s.soundRef with
                           | some h => s.loadedSounds.erase h
                           | none => s.loadedSounds }

/-- Resumption of a send parked at `Audio.Sound.createAsync`: the create
resolves (loading the new sound and assigning it to `soundRef`) or rejects,
the audio mode is set and playback started, and the catch/`finally` of
`sendToAI` run. -/
def completeCreate (env : SendEnv) (s : HState) : HState :=
  match finishPlayback env s with
  | (s', none) => { s' with isResponding := false }
  | (s', some e) => { s' with isResponding := false, errLog := s'.errLog ++ [e] }

/-- Reachable states of the hook under the refined semantics that exposes the
suspension at `Audio.Sound.createAsync`: as `Reachable`, plus a send may park
there (`beginPlay`) and resume later (`finishPlay`), with any steps — other
commands, other sends — in between.  The second index counts parked sends. -/
inductive ReachableFine (p : PlatformOS) (avail : Bool) : HState → Nat → Prop where
  | init : ReachableFine p avail (initState avail) 0
  | start (env : StartEnv) {s : HState} {c : Nat} :
      ReachableFine p avail s c → ReachableFine p avail (startRecording env s) c
  | stop (env : StopEnv) {s : HState} {c : Nat} :
      ReachableFine p avail s c → ReachableFine p avail (stopRecording p env s) c
  | send (env : SendEnv) (i : Nat) {s : HState} {c : Nat} :
      ReachableFine p avail s c → ReachableFine p avail (resolveSend p env i s) c
  | beginPlay (env : SendEnv) (i : Nat) (uri u : String) {s : HState} {c : Nat}
      (h : ReachableFine p avail s c)
      (hpend : s.pendingSends[i]? = some uri)
      (hapi : env.apiUrl = some u)
      (htr : env.transportOk = true)
      (hdec : env.decodeThrows = false)
      (hwr : env.writeThrows = false)
      (hul : env.unloadThrows = false)
      (hp : p = PlatformOS.native) :
      ReachableFine p avail (suspendAtCreate env i s) (c + 1)
  | finishPlay (env : SendEnv) {s : HState} {c : Nat} :
      ReachableFine p avail s (c + 1) → ReachableFine p avail (completeCreate env s) c

/-- Reachable states of the refined semantics restricted to non-overlapping
playback preparations: a send may enter the playback phase, or be resolved in
one piece, only while no other send is parked inside it (parked count 0).
Commands (`start`, `stop`) remain unrestricted. -/
inductive ReachableFineSeq (p : PlatformOS) (avail : Bool) : HState → Nat → Prop where
  | init : ReachableFineSeq p avail (initState avail) 0
  | start (env : StartEnv) {s : HState} {c : Nat} :
      ReachableFineSeq p avail s c → ReachableFineSeq p avail (startRecording env s) c
  | stop (env : StopEnv) {s : HState} {c : Nat} :
      ReachableFineSeq p avail s c → ReachableFineSeq p avail (stopRecording p env s) c
  | send (env : SendEnv) (i : Nat) {s : HState} :
      ReachableFineSeq p avail s 0 → ReachableFineSeq p avail (resolveSend p env i s) 0
  | beginPlay (env : SendEnv) (i : Nat) (uri u : String) {s : HState}
      (h : ReachableFineSeq p avail s 0)
      (hpend : s.pendingSends[i]? = some uri)
      (hapi : env.apiUrl = some u)
      (htr : env.transportOk = true)
      (hdec : env.decodeThrows = false)
      (hwr : env.writeThrows = false)
      (hul : env.unloadThrows = false)
      (hp : p = PlatformOS.native) :
      ReachableFineSeq p avail (suspendAtCreate env i s) 1
  | finishPlay (env : SendEnv) {s : HState} :
      ReachableFineSeq p avail s 1 → ReachableFineSeq p avail (completeCreate env s) 0

/-! ## Shape lemmas for the transition functions -/

theorem startBody_spec (env : StartEnv) (s : HState) :
    (∃ e, startBody env s = (s, some e)) ∨
    (s.isAudioAvailable = true ∧ startBody env s = (beginCapture s, none)) := by
  unfold startBody
  repeat' split
  all_goals first
    | exact Or.inl ⟨_, rfl⟩
    | (refine Or.inr ⟨?_, rfl⟩; simp_all)

theorem startRecording_spec (env : StartEnv) (s : HState) :
    (∃ e, startRecording env s = { s with errLog := s.errLog ++ [e] }) ∨
    (s.isAudioAvailable = true ∧ startRecording env s = beginCapture s) := by
  rcases startBody_spec env s with ⟨e, h⟩ | ⟨hav, h⟩
  · exact Or.inl ⟨e, by unfold startRecording; rw [h]⟩
  · exact Or.inr ⟨hav, by unfold startRecording; rw [h]⟩

theorem startRecording_unavailable (env : StartEnv) (s : HState)
    (h : s.isAudioAvailable = false) :
    startRecording env s = { s with errLog := s.errLog ++ [HError.captureUnavailable] } := by
  unfold startRecording startBody
  simp [h]

theorem startRecording_success (env : StartEnv) (s : HState)
    (h1 : s.isAudioAvailable = true) (h2 : env.permissionThrows = false)
    (h3 : env.permissionGranted = true) (h4 : env.setModeThrows = false)
    (h5 : env.createThrows = false) :
    startRecording env s = beginCapture s := by
  unfold startRecording startBody
  simp [h1, h2, h3, h4, h5]

theorem stopBody_spec (p : PlatformOS) (env : StopEnv) (s : HState) :
    (s.recordingRef = none ∧ stopBody p env s = ({ s with isRecording := false }, none)) ∨
    (∃ k e, s.recordingRef = some k ∧ stopBody p env s = (stopAttempt s k, some e)) ∨
    (∃ k uri, s.recordingRef = some k ∧ env.uri = some uri ∧
      stopBody p env s = (awaitReply (stopAttempt s k) uri, none)) := by
  unfold stopBody
  split
  next heq => exact Or.inl ⟨heq, rfl⟩
  next k heq =>
    right
    repeat' split
    all_goals first
      | exact Or.inl ⟨k, _, heq, rfl⟩
      | (refine Or.inr ⟨k, _, heq, ?_, rfl⟩; assumption)

theorem stopRecording_spec (p : PlatformOS) (env : StopEnv) (s : HState) :
    (s.recordingRef = none ∧ stopRecording p env s = { s with isRecording := false }) ∨
    (∃ k e, s.recordingRef = some k ∧
      stopRecording p env s =
        { s with isRecording := false, isResponding := false,
                 stopCalls := s.stopCalls ++ [k], errLog := s.errLog ++ [e] }) ∨
    (∃ k uri, s.recordingRef = some k ∧ env.uri = some uri ∧
      stopRecording p env s =
        { s with isRecording := false, isResponding := true,
                 stopCalls := s.stopCalls ++ [k],
                 pendingSends := s.pendingSends ++ [uri] }) := by
  rcases stopBody_spec p env s with ⟨h1, h2⟩ | ⟨k, e, h1, h2⟩ | ⟨k, uri, h1, h2, h3⟩
  · exact Or.inl ⟨h1, by unfold stopRecording; rw [h2]⟩
  · exact Or.inr (Or.inl ⟨k, e, h1, by unfold stopRecording; rw [h2]; rfl⟩)
  · exact Or.inr (Or.inr ⟨k, uri, h1, h2, by unfold stopRecording; rw [h3]; rfl⟩)

theorem stopBody_fst_isRecording (p : PlatformOS) (env : StopEnv) (s : HState) :
    (stopBody p env s).1.isRecording = false := by
  unfold stopBody stopAttempt awaitReply
  repeat' split
  all_goals rfl

theorem finishPlayback_frame (env : SendEnv) (s : HState) :
    (finishPlayback env s).1.isAudioAvailable = s.isAudioAvailable ∧
    (finishPlayback env s).1.recordingRef = s.recordingRef ∧
    (finishPlayback env s).1.capturesAcquired = s.capturesAcquired ∧
    (finishPlayback env s).1.isRecording = s.isRecording ∧
    (finishPlayback env s).1.pendingSends = s.pendingSends ∧
    (finishPlayback env s).1.stopCalls = s.stopCalls ∧
    s.nextHandle ≤ (finishPlayback env s).1.nextHandle := by
  unfold finishPlayback playState
  repeat' split
  all_goals exact ⟨rfl, rfl, rfl, rfl, rfl, rfl,
    by first | exact Nat.le.refl | exact Nat.le_succ _⟩

theorem sendPlayNative_frame (env : SendEnv) (s : HState) :
    (sendPlayNative env s).1.isAudioAvailable = s.isAudioAvailable ∧
    (sendPlayNative env s).1.recordingRef = s.recordingRef ∧
    (sendPlayNative env s).1.capturesAcquired = s.capturesAcquired ∧
    (sendPlayNative env s).1.isRecording = s.isRecording ∧
    (sendPlayNative env s).1.pendingSends = s.pendingSends ∧
    (sendPlayNative env s).1.stopCalls = s.stopCalls ∧
    s.nextHandle ≤ (sendPlayNative env s).1.nextHandle := by
  unfold sendPlayNative
  repeat' split
  all_goals first
    | exact ⟨rfl, rfl, rfl, rfl, rfl, rfl, Nat.le.refl⟩
    | exact finishPlayback_frame env _

theorem sendPost_frame (p : PlatformOS) (env : SendEnv) (s : HState) :
    (sendPost p env s).1.isAudioAvailable = s.isAudioAvailable ∧
    (sendPost p env s).1.recordingRef = s.recordingRef ∧
    (sendPost p env s).1.capturesAcquired = s.capturesAcquired ∧
    (sendPost p env s).1.isRecording = s.isRecording ∧
    (sendPost p env s).1.pendingSends = s.pendingSends ∧
    (sendPost p env s).1.stopCalls = s.stopCalls ∧
    s.nextHandle ≤ (sendPost p env s).1.nextHandle := by
  unfold sendPost
  repeat' split
  all_goals first
    | exact ⟨rfl, rfl, rfl, rfl, rfl, rfl, Nat.le.refl⟩
    | exact sendPlayNative_frame env _

theorem sendBody_frame (p : PlatformOS) (env : SendEnv) (uri : String) (s : HState) :
    (sendBody p env uri s).1.isAudioAvailable = s.isAudioAvailable ∧
    (sendBody p env uri s).1.recordingRef = s.recordingRef ∧
    (sendBody p env uri s).1.capturesAcquired = s.capturesAcquired ∧
    (sendBody p env uri s).1.isRecording = s.isRecording ∧
    (sendBody p env uri s).1.pendingSends = s.pendingSends ∧
    (sendBody p env uri s).1.stopCalls = s.stopCalls ∧
    s.nextHandle ≤ (sendBody p env uri s).1.nextHandle := by
  unfold sendBody
  repeat' split
  all_goals first
    | exact ⟨rfl, rfl, rfl, rfl, rfl, rfl, Nat.le.refl⟩
    | exact sendPost_frame p env _

theorem sendPlayNative_cache (env : SendEnv) (s : HState) :
    (sendPlayNative env s).1.cache = s.cache := by
  unfold sendPlayNative finishPlayback playState
  repeat' split
  all_goals rfl

theorem writeFile_cachePath (b : List Nat) (c : List (String × List Nat))
    (h : c = [] ∨ ∃ b0, c = [(cachePath, b0)]) :
    writeFile cachePath b c = [(cachePath, b)] := by
  rcases h with h | ⟨b0, h⟩ <;> subst h <;> simp [writeFile]

theorem sendBody_cacheInv (p : PlatformOS) (env : SendEnv) (uri : String) (s : HState)
    (h : s.cache = [] ∨ ∃ b, s.cache = [(cachePath, b)]) :
    (sendBody p env uri s).1.cache = [] ∨
      ∃ b, (sendBody p env uri s).1.cache = [(cachePath, b)] := by
  unfold sendBody sendPost
  repeat' split
  any_goals exact h
  all_goals
    rw [sendPlayNative_cache]
    exact Or.inr ⟨env.responseBytes, writeFile_cachePath _ _ h⟩

theorem finishPlayback_sound (env : SendEnv) (s : HState) (h : s.loadedSounds = []) :
    (finishPlayback env s).1.loadedSounds = [] ∨
      ∃ k, (finishPlayback env s).1.soundRef = some k ∧
        (finishPlayback env s).1.loadedSounds = [k] := by
  unfold finishPlayback playState
  repeat' split
  all_goals first
    | exact Or.inl h
    | exact Or.inr ⟨s.nextHandle, rfl, by simp [h]⟩

theorem sendPlayNative_sound (env : SendEnv) (s : HState)
    (h : s.loadedSounds = [] ∨ ∃ k, s.soundRef = some k ∧ s.loadedSounds = [k]) :
    (sendPlayNative env s).1.loadedSounds = [] ∨
      ∃ k, (sendPlayNative env s).1.soundRef = some k ∧
        (sendPlayNative env s).1.loadedSounds = [k] := by
  unfold sendPlayNative
  split
  next h0 heq =>
    split
    · exact h
    · apply finishPlayback_sound
      rcases h with h | ⟨k, hk, hl⟩
      · simp [h]
      · rw [heq] at hk
        cases hk
        simp [hl]
  next heq =>
    apply finishPlayback_sound
    rcases h with h | ⟨k, hk, _⟩
    · exact h
    · rw [heq] at hk; cases hk

theorem sendBody_sound (p : PlatformOS) (env : SendEnv) (uri : String) (s : HState)
    (h : s.loadedSounds = [] ∨ ∃ k, s.soundRef = some k ∧ s.loadedSounds = [k]) :
    (sendBody p env uri s).1.loadedSounds = [] ∨
      ∃ k, (sendBody p env uri s).1.soundRef = some k ∧
        (sendBody p env uri s).1.loadedSounds = [k] := by
  unfold sendBody sendPost
  repeat' split
  any_goals exact h
  all_goals exact sendPlayNative_sound _ _ h

theorem sendToAI_frame (p : PlatformOS) (env : SendEnv) (uri : String) (s : HState) :
    (sendToAI p env uri s).isAudioAvailable = s.isAudioAvailable ∧
    (sendToAI p env uri s).recordingRef = s.recordingRef ∧
    (sendToAI p env uri s).capturesAcquired = s.capturesAcquired ∧
    (sendToAI p env uri s).isRecording = s.isRecording ∧
    (sendToAI p env uri s).pendingSends = s.pendingSends ∧
    (sendToAI p env uri s).stopCalls = s.stopCalls ∧
    s.nextHandle ≤ (sendToAI p env uri s).nextHandle ∧
    (sendToAI p env uri s).isResponding = false ∧
    (sendToAI p env uri s).cache = (sendBody p env uri s).1.cache ∧
    (sendToAI p env uri s).soundRef = (sendBody p env uri s).1.soundRef ∧
    (sendToAI p env uri s).loadedSounds = (sendBody p env uri s).1.loadedSounds := by
  have hf := sendBody_frame p env uri s
  unfold sendToAI
  rcases hsb : sendBody p env uri s with ⟨s1, oe⟩
  rw [hsb] at hf
  cases oe <;> exact ⟨hf.1, hf.2.1, hf.2.2.1, hf.2.2.2.1, hf.2.2.2.2.1,
    hf.2.2.2.2.2.1, hf.2.2.2.2.2.2, rfl, rfl, rfl, rfl⟩

theorem startRecording_isResponding (env : StartEnv) (s : HState) :
    (startRecording env s).isResponding = s.isResponding := by
  rcases startRecording_spec env s with ⟨e, hEq⟩ | ⟨_, hEq⟩ <;> rw [hEq] <;> rfl

theorem stopRecording_isRecording (p : PlatformOS) (env : StopEnv) (s : HState) :
    (stopRecording p env s).isRecording = false := by
  rcases stopRecording_spec p env s with ⟨_, hEq⟩ | ⟨_, _, _, hEq⟩ | ⟨_, _, _, _, hEq⟩ <;>
    rw [hEq]

theorem resolveSend_pending (p : PlatformOS) (env : SendEnv) (i : Nat) (s : HState)
    (uri : String) (hpend : s.pendingSends[i]? = some uri) :
    resolveSend p env i s =
      sendToAI p env uri { s with pendingSends := s.pendingSends.eraseIdx i } := by
  unfold resolveSend
  rw [hpend]

theorem resolveSend_cases (p : PlatformOS) (env : SendEnv) (i : Nat) (s : HState) :
    resolveSend p env i s = s ∨
    ((resolveSend p env i s).isResponding = false ∧
      (resolveSend p env i s).isRecording = s.isRecording) := by
  unfold resolveSend
  split
  · exact Or.inl rfl
  next uri hpend =>
    have hf := sendToAI_frame p env uri { s with pendingSends := s.pendingSends.eraseIdx i }
    exact Or.inr ⟨hf.2.2.2.2.2.2.2.1, hf.2.2.2.1⟩

theorem startRecording_sounds (env : StartEnv) (s : HState) :
    (startRecording env s).loadedSounds = s.loadedSounds ∧
    (startRecording env s).soundRef = s.soundRef := by
  rcases startRecording_spec env s with ⟨e, hEq⟩ | ⟨_, hEq⟩ <;> rw [hEq] <;> exact ⟨rfl, rfl⟩

theorem stopRecording_sounds (p : PlatformOS) (env : StopEnv) (s : HState) :
    (stopRecording p env s).loadedSounds = s.loadedSounds ∧
    (stopRecording p env s).soundRef = s.soundRef := by
  rcases stopRecording_spec p env s with ⟨_, hEq⟩ | ⟨_, _, _, hEq⟩ | ⟨_, _, _, _, hEq⟩ <;>
    rw [hEq] <;> exact ⟨rfl, rfl⟩

theorem resolveSend_sound (p : PlatformOS) (env : SendEnv) (i : Nat) (s : HState)
    (h : s.loadedSounds = [] ∨ ∃ k, s.soundRef = some k ∧ s.loadedSounds = [k]) :
    (resolveSend p env i s).loadedSounds = [] ∨
      ∃ k, (resolveSend p env i s).soundRef = some k ∧
        (resolveSend p env i s).loadedSounds = [k] := by
  unfold resolveSend
  split
  · exact h
  next uri hpend =>
    obtain ⟨_, _, _, _, _, _, _, _, _, f10, f11⟩ :=
      sendToAI_frame p env uri { s with pendingSends := s.pendingSends.eraseIdx i }
    rw [f10, f11]
    exact sendBody_sound p env uri _ h

theorem suspendAtCreate_loaded (env : SendEnv) (i : Nat) (s : HState)
    (h : s.loadedSounds = [] ∨ ∃ k, s.soundRef = some k ∧ s.loadedSounds = [k]) :
    (suspendAtCreate env i s).loadedSounds = [] := by
  unfold suspendAtCreate
  cases hs : s.soundRef with
  | none =>
    rcases h with h0 | ⟨k, hk, _⟩
    · exact h0
    · rw [hs] at hk; cases hk
  | some k0 =>
    rcases h with h0 | ⟨k, hk, hl⟩
    · simp [h0]
    · rw [hs] at hk
      cases hk
      simp [hl]

theorem completeCreate_sound (env : SendEnv) (s : HState) (h : s.loadedSounds = []) :
    (completeCreate env s).loadedSounds = [] ∨
      ∃ k, (completeCreate env s).soundRef = some k ∧
        (completeCreate env s).loadedSounds = [k] := by
  unfold completeCreate
  have hs := finishPlayback_sound env s h
  rcases hf : finishPlayback env s with ⟨s1, oe⟩
  rw [hf] at hs
  cases oe <;> exact hs

/-! ## The reachable-state invariant -/

/-- Invariant satisfied by every reachable state of the hook:
the availability flag is the probe result; the capture ref is empty exactly
when no capture session was ever acquired; an empty capture ref forces the
capturing flag off; every handle stored in a ref was allocated; at most the
single fixed-path cache file exists; at most one playback session is loaded,
and only the one held in `soundRef`; and if audio is unavailable no capture
activity ever happens. -/
structure StateInv (avail : Bool) (s : HState) : Prop where
  availEq : s.isAudioAvailable = avail
  refCaptures : s.recordingRef = none ↔ s.capturesAcquired = []
  refRec : s.recordingRef = none → s.isRecording = false
  refBound : ∀ k, s.recordingRef = some k → k < s.nextHandle
  cacheInv : s.cache = [] ∨ ∃ b, s.cache = [(cachePath, b)]
  soundInv : s.loadedSounds = [] ∨ ∃ k, s.soundRef = some k ∧ s.loadedSounds = [k]
  unavailable : avail = false → s.isRecording = false ∧ s.capturesAcquired = [] ∧
    s.recordingRef = none ∧ s.pendingSends = []

theorem stateInv_init (avail : Bool) : StateInv avail (initState avail) := by
  refine ⟨?_, ?_, ?_, ?_, ?_, ?_, ?_⟩ <;> simp [initState]

theorem stateInv_start (env : StartEnv) {avail : Bool} {s : HState}
    (ih : StateInv avail s) : StateInv avail (startRecording env s) := by
  rcases startRecording_spec env s with ⟨e, hEq⟩ | ⟨hav, hEq⟩ <;> rw [hEq]
  · exact ⟨ih.availEq, ih.refCaptures, ih.refRec, ih.refBound, ih.cacheInv,
      ih.soundInv, ih.unavailable⟩
  · constructor
    · exact ih.availEq
    · simp [beginCapture]
    · simp [beginCapture]
    · intro k hk
      simp [beginCapture] at hk ⊢
      omega
    · exact ih.cacheInv
    · exact ih.soundInv
    · intro hf
      have h1 := ih.availEq
      rw [hf] at h1
      rw [h1] at hav
      cases hav

theorem stateInv_stop (p : PlatformOS) (env : StopEnv) {avail : Bool} {s : HState}
    (ih : StateInv avail s) : StateInv avail (stopRecording p env s) := by
  rcases stopRecording_spec p env s with ⟨h1, hEq⟩ | ⟨k, e, h1, hEq⟩ | ⟨k, uri, h1, h2, hEq⟩ <;>
    rw [hEq]
  · exact ⟨ih.availEq, ih.refCaptures, fun _ => rfl, ih.refBound, ih.cacheInv, ih.soundInv,
      fun hf => ⟨rfl, (ih.unavailable hf).2.1, (ih.unavailable hf).2.2.1,
        (ih.unavailable hf).2.2.2⟩⟩
  · exact ⟨ih.availEq, ih.refCaptures, fun _ => rfl, ih.refBound, ih.cacheInv, ih.soundInv,
      fun hf => ⟨rfl, (ih.unavailable hf).2.1, (ih.unavailable hf).2.2.1,
        (ih.unavailable hf).2.2.2⟩⟩
  · refine ⟨ih.availEq, ih.refCaptures, fun _ => rfl, ih.refBound, ih.cacheInv, ih.soundInv,
      fun hf => ?_⟩
    exfalso
    have hnone := (ih.unavailable hf).2.2.1
    rw [h1] at hnone
    cases hnone

theorem stateInv_send (p : PlatformOS) (env : SendEnv) (i : Nat) {avail : Bool} {s : HState}
    (ih : StateInv avail s) : StateInv avail (resolveSend p env i s) := by
  unfold resolveSend
  split
  · exact ih
  next uri hpend =>
    obtain ⟨f1, f2, f3, f4, f5, f6, f7, f8, f9, f10, f11⟩ :=
      sendToAI_frame p env uri { s with pendingSends := s.pendingSends.eraseIdx i }
    have h7 : s.nextHandle ≤
        (sendToAI p env uri { s with pendingSends := s.pendingSends.eraseIdx i }).nextHandle := f7
    constructor
    · rw [f1]; exact ih.availEq
    · rw [f2, f3]; exact ih.refCaptures
    · intro h
      rw [f2] at h
      rw [f4]
      exact ih.refRec h
    · intro k hk
      rw [f2] at hk
      exact Nat.lt_of_lt_of_le (ih.refBound k hk) h7
    · rw [f9]
      exact sendBody_cacheInv p env uri _ ih.cacheInv
    · rw [f10, f11]
      exact sendBody_sound p env uri _ ih.soundInv
    · intro hf
      exfalso
      have hp := (ih.unavailable hf).2.2.2
      rw [hp] at hpend
      simp at hpend

/-- Every reachable state satisfies the invariant. -/
theorem reach_inv {p : PlatformOS} {avail : Bool} {s : HState}
    (h : Reachable p avail s) : StateInv avail s := by
  induction h with
  | init => exact stateInv_init avail
  | start env _ ih => exact stateInv_start env ih
  | stop env _ ih => exact stateInv_stop p env ih
  | send env i _ ih => exact stateInv_send p env i ih

/-! ## Concrete traces

Environments in which every external collaborator succeeds, and the states
of two example runs: a web run (start, stop, and a second start while the
reply is still pending / the resolution of the pending send), and a native
run of two complete interactions. -/

def okStartEnv : StartEnv :=
  { permissionThrows := false
    permissionGranted := true
    setModeThrows := false
    createThrows := false }

def okStopEnvWeb : StopEnv :=
  { stopUnloadThrows := false
    uri := some "blob:recording"
    statusThrows := false
    isDoneRecording := true }

def okStopEnvNative : StopEnv :=
  { stopUnloadThrows := false
    uri := some "file:///rec.m4a"
    statusThrows := false
    isDoneRecording := true }

def okSendEnv : SendEnv :=
  { apiUrl := some "https://api.example"
    fetchThrows := false
    transportOk := true
    status := 200
    responseBytes := [1, 2, 3]
    decodeThrows := false
    writeThrows := false
    unloadThrows := false
    createSoundThrows := false
    setModeThrows := false
    playThrows := false }

def okSendEnvB : SendEnv := { okSendEnv with responseBytes := [9, 9] }

def badStopEnv : StopEnv :=
  { stopUnloadThrows := true
    uri := none
    statusThrows := false
    isDoneRecording := false }

def badSendEnv : SendEnv := { okSendEnv with transportOk := false, status := 500 }

def noCfgSendEnv : SendEnv := { okSendEnv with apiUrl := none }

def exW1 : HState := startRecording okStartEnv (initState true)

def exW2 : HState := stopRecording PlatformOS.web okStopEnvWeb exW1

def exW3 : HState := startRecording okStartEnv exW2

def exW4 : HState := resolveSend PlatformOS.web okSendEnv 0 exW2

def exN2 : HState := stopRecording PlatformOS.native okStopEnvNative exW1

def exN3 : HState := resolveSend PlatformOS.native okSendEnv 0 exN2

def exN4 : HState := startRecording okStartEnv exN3

def exN5 : HState := stopRecording PlatformOS.native okStopEnvNative exN4

theorem reach_exW1 : Reachable PlatformOS.web true exW1 :=
  Reachable.start okStartEnv Reachable.init

theorem reach_exW2 : Reachable PlatformOS.web true exW2 :=
  Reachable.stop okStopEnvWeb reach_exW1

theorem reach_exW3 : Reachable PlatformOS.web true exW3 :=
  Reachable.start okStartEnv reach_exW2

theorem reach_exW4 : Reachable PlatformOS.web true exW4 :=
  Reachable.send okSendEnv 0 reach_exW2

theorem reach_exN1 : Reachable PlatformOS.native true exW1 :=
  Reachable.start okStartEnv Reachable.init

theorem reach_exN2 : Reachable PlatformOS.native true exN2 :=
  Reachable.stop okStopEnvNative reach_exN1

theorem reach_exN3 : Reachable PlatformOS.native true exN3 :=
  Reachable.send okSendEnv 0 reach_exN2

theorem reach_exN4 : Reachable PlatformOS.native true exN4 :=
  Reachable.start okStartEnv reach_exN3

theorem reach_exN5 : Reachable PlatformOS.native true exN5 :=
  Reachable.stop okStopEnvNative reach_exN4

/-! Fine-model traces.  `exF3`-`exF8`: after the first native stop the reply
is still pending; a second unguarded start/stop puts a second send in
flight; both sends then enter the playback phase (each passing the
`soundRef` null-check while the other is parked at `createAsync`) and both
resume, loading two sounds.  `exS5`/`exS6`: a single send passing through
the same suspension point with nothing interleaved. -/

def exF3 : HState := startRecording okStartEnv exN2

def exF4 : HState := stopRecording PlatformOS.native okStopEnvNative exF3

def exF5 : HState := suspendAtCreate okSendEnv 0 exF4

def exF6 : HState := suspendAtCreate okSendEnv 0 exF5

def exF7 : HState := completeCreate okSendEnv exF6

def exF8 : HState := completeCreate okSendEnv exF7

def exS5 : HState := suspendAtCreate okSendEnv 0 exN2

def exS6 : HState := completeCreate okSendEnv exS5

/-! ## Claims -/

/-- C1 (counterexample): the invariant "capturing and awaitingReply are never
both true" fails on a reachable state: start a recording, stop it (the reply
is now awaited and the send is in flight), then call `startRecording` again
while the reply is still pending.  The second start is not guarded and raises
`isRecording` while `isResponding` is still true. -/
theorem C1_counterexample :
    Reachable PlatformOS.web true exW3 ∧
    exW3.isRecording = true ∧ exW3.isResponding = true :=
  ⟨reach_exW3, by decide, by decide⟩

theorem seq_resp_rec {p : PlatformOS} {avail : Bool} {s : HState}
    (h : ReachableSeq p avail s) : s.isResponding = true → s.isRecording = false := by
  induction h with
  | init => intro habs; simp [initState] at habs
  | start env _ hresp ih =>
    intro habs
    rw [startRecording_isResponding, hresp] at habs
    cases habs
  | stop env _ _ => intro _; exact stopRecording_isRecording _ _ _
  | send env i _ ih =>
    intro habs
    rcases resolveSend_cases p env i _ with hEq | ⟨h1, _⟩
    · rw [hEq] at habs ⊢
      exact ih habs
    · rw [h1] at habs
      cases habs

/-- C1 (amended): for every state reached without invoking `startRecording`
while a reply is awaited (sequential, non-overlapping use of the hook),
`isRecording` and `isResponding` are never both true: `stopRecording` clears
the capturing flag before raising the awaiting-reply flag, and resolving a
send always clears the awaiting-reply flag. -/
theorem C1_amended {p : PlatformOS} {avail : Bool} {s : HState}
    (h : ReachableSeq p avail s) : ¬(s.isRecording = true ∧ s.isResponding = true) := by
  rintro ⟨h1, h2⟩
  rw [seq_resp_rec h h2] at h1
  cases h1

/-- C1 witness: the amended invariant at the awaiting-reply state of a
sequential run. -/
theorem C1_witness : ¬(exW2.isRecording = true ∧ exW2.isResponding = true) :=
  C1_amended
    (ReachableSeq.stop okStopEnvWeb
      (ReachableSeq.start okStartEnv ReachableSeq.init (by decide)))

/-- C2 (counterexample): calling `startRecording` while capture is active is
neither rejected nor a no-op: at the reachable state `exW1` (capturing), a
second call acquires a second CaptureSession and replaces the one held in
`recordingRef`. -/
theorem C2_counterexample :
    Reachable PlatformOS.web true exW1 ∧ exW1.isRecording = true ∧
    (startRecording okStartEnv exW1).recordingRef ≠ exW1.recordingRef ∧
    (startRecording okStartEnv exW1).capturesAcquired.length =
      exW1.capturesAcquired.length + 1 :=
  ⟨reach_exW1, by decide, by decide, by decide⟩

/-- C2 (amended): `startRecording` is not guarded against an active
interaction: in any reachable state, even one where capturing or
awaitingReply is true, a call in which permission is granted and the device
steps succeed acquires a fresh CaptureSession and replaces the session held
in `recordingRef`; the previous session is not stopped or released. -/
theorem C2_amended {p : PlatformOS} {s : HState} (env : StartEnv)
    (h : Reachable p true s)
    (hact : s.isRecording = true ∨ s.isResponding = true)
    (h2 : env.permissionThrows = false) (h3 : env.permissionGranted = true)
    (h4 : env.setModeThrows = false) (h5 : env.createThrows = false) :
    (startRecording env s).recordingRef = some s.nextHandle ∧
    (startRecording env s).recordingRef ≠ s.recordingRef ∧
    (startRecording env s).capturesAcquired = s.capturesAcquired ++ [s.nextHandle] ∧
    (startRecording env s).isRecording = true := by
  have hav : s.isAudioAvailable = true := (reach_inv h).availEq
  rw [startRecording_success env s hav h2 h3 h4 h5]
  refine ⟨rfl, ?_, rfl, rfl⟩
  cases hr : s.recordingRef with
  | none => simp [beginCapture, hr]
  | some k =>
    have hb := (reach_inv h).refBound k hr
    simp only [beginCapture, hr]
    intro habs
    rw [Option.some.injEq] at habs
    omega

/-- C2 witness: the amended statement at the capturing state `exW1`. -/
theorem C2_witness :
    (startRecording okStartEnv exW1).recordingRef = some exW1.nextHandle ∧
    (startRecording okStartEnv exW1).recordingRef ≠ exW1.recordingRef ∧
    (startRecording okStartEnv exW1).capturesAcquired =
      exW1.capturesAcquired ++ [exW1.nextHandle] ∧
    (startRecording okStartEnv exW1).isRecording = true :=
  C2_amended okStartEnv reach_exW1 (Or.inl (by decide)) rfl rfl rfl rfl

/-- C3 (counterexample): the full happy path on the non-native (web) platform
persists no cache file at all: the reply is played from a transient object
URL, so after a complete successful interaction the cache is empty even
though the transport was called and the interaction ended idle. -/
theorem C3_counterexample :
    Reachable PlatformOS.web true exW4 ∧
    exW4.networkCalls = 1 ∧ exW4.isResponding = false ∧ exW4.isRecording = false ∧
    exW4.cache = [] :=
  ⟨reach_exW4, by decide, by decide, by decide, by decide⟩

theorem sendBody_native_cache (env : SendEnv) (uri : String) (s : HState) (u : String)
    (h1 : env.apiUrl = some u) (h2 : env.transportOk = true)
    (h3 : env.decodeThrows = false) (h4 : env.writeThrows = false) :
    (sendBody PlatformOS.native env uri s).1.cache =
      writeFile cachePath env.responseBytes s.cache := by
  unfold sendBody sendPost
  rw [h1]
  simp [h2, h3, h4, sendPlayNative_cache]

/-- C3 (amended): a full successful interaction on the NATIVE platform — the
platform whose playback branch persists the reply — ends idle and leaves
exactly one persisted cache file, at the fixed path
`<cache-dir>/response.mp3`, containing the latest reply's bytes and
overwriting any prior file.  (On the non-native platform no file is
persisted; see the counterexample.) -/
theorem C3_amended {avail : Bool} {s : HState} (env : SendEnv) (i : Nat) (uri u : String)
    (h : Reachable PlatformOS.native avail s)
    (hpend : s.pendingSends[i]? = some uri)
    (h1 : env.apiUrl = some u) (h2 : env.transportOk = true)
    (h3 : env.decodeThrows = false) (h4 : env.writeThrows = false)
    (h5 : env.unloadThrows = false) (h6 : env.createSoundThrows = false) :
    (resolveSend PlatformOS.native env i s).cache = [(cachePath, env.responseBytes)] ∧
    (resolveSend PlatformOS.native env i s).isResponding = false := by
  rw [resolveSend_pending PlatformOS.native env i s uri hpend]
  obtain ⟨_, _, _, _, _, _, _, f8, f9, _, _⟩ :=
    sendToAI_frame PlatformOS.native env uri { s with pendingSends := s.pendingSends.eraseIdx i }
  refine ⟨?_, f8⟩
  rw [f9, sendBody_native_cache env uri _ u h1 h2 h3 h4]
  exact writeFile_cachePath env.responseBytes _ (reach_inv h).cacheInv

/-- C3 witness: the amended statement at the end of the second native
interaction: the first interaction left the cache file holding `[1, 2, 3]`,
and resolving the second interaction's send overwrites it with `[9, 9]`,
still as the single file at the fixed path. -/
theorem C3_witness :
    exN5.cache = [(cachePath, [1, 2, 3])] ∧
    (resolveSend PlatformOS.native okSendEnvB 0 exN5).cache = [(cachePath, [9, 9])] ∧
    (resolveSend PlatformOS.native okSendEnvB 0 exN5).isResponding = false := by
  have h := C3_amended okSendEnvB 0 "file:///rec.m4a" "https://api.example"
    reach_exN5 (by decide) rfl rfl rfl rfl rfl rfl
  exact ⟨by decide, h.1, h.2⟩

/-- C4: every failure after capture stops is caught at the interaction level:
if the stop/finalize sequence throws, `stopRecording` ends with capturing and
awaitingReply false and the error appended to the log; if any stage of
`sendToAI` throws (configuration, fetch, transport, decode, write, unload,
session creation, audio mode, playback), `sendToAI` ends with awaitingReply
false, capturing untouched, and the error appended to the log.  Neither
function propagates an error: in this embedding both are total functions into
states, mirroring their catch-all handlers. -/
theorem C4_failureRecovery (p : PlatformOS) (env : StopEnv) (senv : SendEnv)
    (uri : String) (s : HState) (e e' : HError) :
    ((stopBody p env s).2 = some e →
        (stopRecording p env s).isRecording = false ∧
        (stopRecording p env s).isResponding = false ∧
        (stopRecording p env s).errLog = (stopBody p env s).1.errLog ++ [e]) ∧
    ((sendBody p senv uri s).2 = some e' →
        (sendToAI p senv uri s).isResponding = false ∧
        (sendToAI p senv uri s).isRecording = s.isRecording ∧
        (sendToAI p senv uri s).errLog = (sendBody p senv uri s).1.errLog ++ [e']) := by
  constructor
  · intro h
    have hrec := stopBody_fst_isRecording p env s
    unfold stopRecording
    rcases hsb : stopBody p env s with ⟨s1, oe⟩
    rw [hsb] at h hrec
    cases oe with
    | none => simp at h
    | some e2 =>
      have he : e2 = e := by simpa using h
      subst he
      exact ⟨hrec, rfl, rfl⟩
  · intro h
    have hf := (sendBody_frame p senv uri s).2.2.2.1
    unfold sendToAI
    rcases hsb : sendBody p senv uri s with ⟨s1, oe⟩
    rw [hsb] at h hf
    cases oe with
    | none => simp at h
    | some e2 =>
      have he : e2 = e' := by simpa using h
      subst he
      exact ⟨rfl, hf, rfl⟩

/-- C4 witness: a rejecting `stopAndUnloadAsync` and a rejecting transport
call, each at the concrete capturing state. -/
theorem C4_witness :
    (stopBody PlatformOS.native badStopEnv exW1).2 = some HError.stopFailed ∧
    (stopRecording PlatformOS.native badStopEnv exW1).isRecording = false ∧
    (stopRecording PlatformOS.native badStopEnv exW1).isResponding = false ∧
    (sendBody PlatformOS.native badSendEnv "file:///rec.m4a" exW1).2 =
      some (HError.transportError 500) ∧
    (sendToAI PlatformOS.native badSendEnv "file:///rec.m4a" exW1).isResponding = false := by
  have h := C4_failureRecovery PlatformOS.native badStopEnv badSendEnv "file:///rec.m4a" exW1
    HError.stopFailed (HError.transportError 500)
  exact ⟨by decide, (h.1 (by decide)).1, (h.1 (by decide)).2.1, by decide,
    (h.2 (by decide)).1⟩

/-- C5: if the transport call responds with a non-success status, resolving
the in-flight send ends the interaction at Idle (both flags false) with the
transport error and its status logged and exactly one POST attempted, and the
playback session reference is neither created nor replaced: `soundRef` and
the loaded-session set are exactly what they were before. -/
theorem C5_transportFailureFrame (p : PlatformOS) (env : SendEnv) (i : Nat) (s : HState)
    (uri u : String)
    (hpend : s.pendingSends[i]? = some uri)
    (hapi : env.apiUrl = some u)
    (hfetch : p = PlatformOS.web → env.fetchThrows = false)
    (htrans : env.transportOk = false)
    (hrec : s.isRecording = false) :
    (resolveSend p env i s).isResponding = false ∧
    (resolveSend p env i s).isRecording = false ∧
    (resolveSend p env i s).soundRef = s.soundRef ∧
    (resolveSend p env i s).loadedSounds = s.loadedSounds ∧
    (resolveSend p env i s).networkCalls = s.networkCalls + 1 ∧
    (resolveSend p env i s).errLog = s.errLog ++ [HError.transportError env.status] := by
  rw [resolveSend_pending p env i s uri hpend]
  unfold sendToAI sendBody sendPost
  rw [hapi]
  by_cases hp : p = PlatformOS.web
  · simp [hp, hfetch hp, htrans, hrec]
  · simp [hp, htrans, hrec]

/-- C5 witness: a 500 response at the awaiting-reply state of the web run. -/
theorem C5_witness :
    (resolveSend PlatformOS.web badSendEnv 0 exW2).isResponding = false ∧
    (resolveSend PlatformOS.web badSendEnv 0 exW2).isRecording = false ∧
    (resolveSend PlatformOS.web badSendEnv 0 exW2).soundRef = exW2.soundRef ∧
    (resolveSend PlatformOS.web badSendEnv 0 exW2).loadedSounds = exW2.loadedSounds ∧
    (resolveSend PlatformOS.web badSendEnv 0 exW2).networkCalls = exW2.networkCalls + 1 ∧
    (resolveSend PlatformOS.web badSendEnv 0 exW2).errLog =
      exW2.errLog ++ [HError.transportError 500] :=
  C5_transportFailureFrame PlatformOS.web badSendEnv 0 exW2 "blob:recording"
    "https://api.example" (by decide) rfl (fun _ => rfl) rfl (by decide)

/-- C6: if the availability probe resolved to false, capture never happens:
in every reachable state the capturing flag is down, no CaptureSession was
ever acquired and none is held, and a further `startRecording` call changes
none of that (it throws the capture-unavailable error, which is caught and
logged). -/
theorem C6_unavailableNoCapture (p : PlatformOS) (env : StartEnv) {s : HState}
    (h : Reachable p false s) :
    s.isRecording = false ∧ s.capturesAcquired = [] ∧ s.recordingRef = none ∧
    (startRecording env s).isRecording = false ∧
    (startRecording env s).capturesAcquired = [] ∧
    (startRecording env s).recordingRef = none := by
  obtain ⟨ha, hb, hc, _⟩ := (reach_inv h).unavailable rfl
  rw [startRecording_unavailable env s (reach_inv h).availEq]
  exact ⟨ha, hb, hc, ha, hb, hc⟩

/-- C6 witness: the statement at the unavailable initial state. -/
theorem C6_witness :
    (initState false).isRecording = false ∧
    (initState false).capturesAcquired = [] ∧
    (initState false).recordingRef = none ∧
    (startRecording okStartEnv (initState false)).isRecording = false ∧
    (startRecording okStartEnv (initState false)).capturesAcquired = [] ∧
    (startRecording okStartEnv (initState false)).recordingRef = none :=
  C6_unavailableNoCapture PlatformOS.native okStartEnv Reachable.init

theorem update_isRecording_self (s : HState) (h : s.isRecording = false) :
    { s with isRecording := false } = s := by
  cases s
  simp_all

/-- C7: calling `stopRecording` when no capture session exists is a complete
no-op: the state — flags, refs, sessions, files, log — is returned unchanged,
and no error escapes (the early return fires before any device call). -/
theorem C7_stopNoop (p : PlatformOS) (env : StopEnv) {avail : Bool} {s : HState}
    (h : Reachable p avail s) (href : s.recordingRef = none) :
    stopRecording p env s = s := by
  rcases stopRecording_spec p env s with ⟨_, hEq⟩ | ⟨k, e, h1, _⟩ | ⟨k, uri, h1, _, _⟩
  · rw [hEq]
    exact update_isRecording_self s ((reach_inv h).refRec href)
  · rw [href] at h1; cases h1
  · rw [href] at h1; cases h1

/-- C7 witness: a stop before any capture ever started. -/
theorem C7_witness :
    stopRecording PlatformOS.web okStopEnvWeb (initState true) = initState true :=
  C7_stopNoop PlatformOS.web okStopEnvWeb Reachable.init rfl

/-- C8: if the API URL configuration is absent, `sendToAI` fails with the
configuration error before any HTTP request is attempted: resolving the
in-flight send performs zero network calls, logs the configuration error, and
returns the interaction to idle. -/
theorem C8_missingConfig (p : PlatformOS) (env : SendEnv) (i : Nat) (s : HState)
    (uri : String) (hpend : s.pendingSends[i]? = some uri)
    (hapi : env.apiUrl = none) :
    (resolveSend p env i s).networkCalls = s.networkCalls ∧
    (resolveSend p env i s).isResponding = false ∧
    (resolveSend p env i s).isRecording = s.isRecording ∧
    (resolveSend p env i s).errLog = s.errLog ++ [HError.configurationError] := by
  rw [resolveSend_pending p env i s uri hpend]
  unfold sendToAI sendBody
  rw [hapi]
  exact ⟨rfl, rfl, rfl, rfl⟩

/-- C8 witness: a missing API URL at the awaiting-reply state of the web
run. -/
theorem C8_witness :
    (resolveSend PlatformOS.web noCfgSendEnv 0 exW2).networkCalls = exW2.networkCalls ∧
    (resolveSend PlatformOS.web noCfgSendEnv 0 exW2).isResponding = false ∧
    (resolveSend PlatformOS.web noCfgSendEnv 0 exW2).isRecording = exW2.isRecording ∧
    (resolveSend PlatformOS.web noCfgSendEnv 0 exW2).errLog =
      exW2.errLog ++ [HError.configurationError] :=
  C8_missingConfig PlatformOS.web noCfgSendEnv 0 exW2 "blob:recording" (by decide) rfl

/-- C9 (counterexample): under the refined semantics that exposes the
suspension at `Audio.Sound.createAsync` (line 157), two playback sessions can
be loaded at once.  Because `startRecording` is unguarded, two sends can be
in flight together; both pass the `if (soundRef.current)` check (line 153)
while `soundRef` is still empty — neither has reached the assignment at line
162 — so neither unloads the other, and when both creates resolve two sounds
are loaded, with only the later one held in `soundRef` (the other leaked). -/
theorem C9_counterexample :
    ReachableFine PlatformOS.native true exF8 0 ∧
    exF8.loadedSounds = [2, 3] ∧ exF8.soundRef = some 3 ∧
    exF8.loadedSounds.length = 2 := by
  refine ⟨?_, by decide, by decide, by decide⟩
  exact ReachableFine.finishPlay okSendEnv
    (ReachableFine.finishPlay okSendEnv
      (ReachableFine.beginPlay okSendEnv 0 "file:///rec.m4a" "https://api.example"
        (ReachableFine.beginPlay okSendEnv 0 "file:///rec.m4a" "https://api.example"
          (ReachableFine.stop okStopEnvNative
            (ReachableFine.start okStartEnv
              (ReachableFine.stop okStopEnvNative
                (ReachableFine.start okStartEnv ReachableFine.init))))
          (by decide) rfl rfl rfl rfl rfl rfl)
        (by decide) rfl rfl rfl rfl rfl rfl))

theorem fineSeq_inv {p : PlatformOS} {avail : Bool} {s : HState} {c : Nat}
    (h : ReachableFineSeq p avail s c) :
    c ≤ 1 ∧ (c = 1 → s.loadedSounds = []) ∧
    (c = 0 → (s.loadedSounds = [] ∨ ∃ k, s.soundRef = some k ∧ s.loadedSounds = [k])) := by
  induction h with
  | init =>
    exact ⟨Nat.zero_le 1, fun h0 => absurd h0 (by decide), fun _ => Or.inl rfl⟩
  | start env _ ih =>
    obtain ⟨hl, hs⟩ := startRecording_sounds env _
    refine ⟨ih.1, ?_, ?_⟩
    · intro hc; rw [hl]; exact ih.2.1 hc
    · intro hc; rw [hl, hs]; exact ih.2.2 hc
  | stop env _ ih =>
    obtain ⟨hl, hs⟩ := stopRecording_sounds p env _
    refine ⟨ih.1, ?_, ?_⟩
    · intro hc; rw [hl]; exact ih.2.1 hc
    · intro hc; rw [hl, hs]; exact ih.2.2 hc
  | send env i _ ih =>
    exact ⟨Nat.zero_le 1, fun h0 => absurd h0 (by decide),
      fun _ => resolveSend_sound p env i _ (ih.2.2 rfl)⟩
  | beginPlay env i uri u _ hpend hapi htr hdec hwr hul hp ih =>
    exact ⟨Nat.le_refl 1, fun _ => suspendAtCreate_loaded env i _ (ih.2.2 rfl),
      fun h0 => absurd h0 (by decide)⟩
  | finishPlay env _ ih =>
    exact ⟨Nat.zero_le 1, fun h0 => absurd h0 (by decide),
      fun _ => completeCreate_sound env _ (ih.2.1 rfl)⟩

/-- C9 (amended): on the native path each playback preparation releases the
previously held PlaybackSession before acquiring its own new one, so at most
one PlaybackSession is loaded at any time — including while a send is parked
inside the playback phase — provided playback preparations do not overlap:
no send enters the playback phase, or is resolved, while another send is
parked inside it.  (Without that proviso the claim is false: see the
counterexample, reachable because `startRecording` is unguarded.)  In any
such state every loaded session is the one held in `soundRef`. -/
theorem C9_amended {p : PlatformOS} {avail : Bool} {s : HState} {c : Nat}
    (h : ReachableFineSeq p avail s c) :
    s.loadedSounds.length ≤ 1 ∧ ∀ k, k ∈ s.loadedSounds → s.soundRef = some k := by
  obtain ⟨hc, h1, h0⟩ := fineSeq_inv h
  rcases Nat.le_one_iff_eq_zero_or_eq_one.mp hc with rfl | rfl
  · rcases h0 rfl with hl | ⟨k, hk, hl⟩ <;> rw [hl]
    · exact ⟨by simp, by simp⟩
    · refine ⟨by simp, ?_⟩
      intro x hx
      rw [List.mem_singleton] at hx
      subst hx
      exact hk
  · rw [h1 rfl]
    exact ⟨by simp, by simp⟩

/-- C9 witness: a single send passing through the createAsync suspension
point with nothing interleaved ends with exactly its own session loaded. -/
theorem C9_witness :
    exS6.loadedSounds = [1] ∧
    (exS6.loadedSounds.length ≤ 1 ∧ ∀ k, k ∈ exS6.loadedSounds → exS6.soundRef = some k) := by
  refine ⟨by decide, ?_⟩
  exact C9_amended
    (ReachableFineSeq.finishPlay okSendEnv
      (ReachableFineSeq.beginPlay okSendEnv 0 "file:///rec.m4a" "https://api.example"
        (ReachableFineSeq.stop okStopEnvNative
          (ReachableFineSeq.start okStartEnv ReachableFineSeq.init))
        (by decide) rfl rfl rfl rfl rfl rfl))

theorem resolveSend_recordingRef (p : PlatformOS) (env : SendEnv) (i : Nat) (s : HState) :
    (resolveSend p env i s).recordingRef = s.recordingRef := by
  unfold resolveSend
  split
  · rfl
  next uri hpend => exact (sendToAI_frame p env uri _).2.1

/-- C10: the capture handle is never cleared: `recordingRef` is `none`
exactly when no capture was ever acquired, so the silent no-op path of
`stopRecording` is reachable only before the first capture ever starts; once
the ref holds a handle, every `stopRecording` call — including one issued
after the session was already finalized — keeps the handle and re-runs
stop-and-unload on that stale handle; resolving a send never touches the
ref, and `startRecording` can only replace it with a new handle, never clear
it. -/
theorem C10_staleHandle {p : PlatformOS} {avail : Bool} {s : HState}
    (h : Reachable p avail s) :
    (s.recordingRef = none ↔ s.capturesAcquired = []) ∧
    (∀ env k, s.recordingRef = some k →
      (stopRecording p env s).recordingRef = some k ∧
      (stopRecording p env s).stopCalls = s.stopCalls ++ [k]) ∧
    (∀ env i, (resolveSend p env i s).recordingRef = s.recordingRef) ∧
    (∀ env, s.recordingRef ≠ none → (startRecording env s).recordingRef ≠ none) := by
  refine ⟨(reach_inv h).refCaptures, ?_, ?_, ?_⟩
  · intro env k hk
    rcases stopRecording_spec p env s with ⟨h1, _⟩ | ⟨k2, e, h1, hEq⟩ | ⟨k2, uri, h1, _, hEq⟩
    · rw [hk] at h1; cases h1
    · rw [h1] at hk
      injection hk with hk2
      subst hk2
      rw [hEq]
      exact ⟨h1, rfl⟩
    · rw [h1] at hk
      injection hk with hk2
      subst hk2
      rw [hEq]
      exact ⟨h1, rfl⟩
  · intro env i
    exact resolveSend_recordingRef p env i s
  · intro env hne
    rcases startRecording_spec env s with ⟨e, hEq⟩ | ⟨_, hEq⟩ <;> rw [hEq]
    · exact hne
    · simp [beginCapture]

/-- C10 witness: after the finalized first native interaction the stale
handle is still held, and a second stop re-runs stop-and-unload on it. -/
theorem C10_witness :
    exN3.recordingRef = some 0 ∧
    (stopRecording PlatformOS.native okStopEnvNative exN3).recordingRef = some 0 ∧
    (stopRecording PlatformOS.native okStopEnvNative exN3).stopCalls =
      exN3.stopCalls ++ [0] := by
  have h := (C10_staleHandle reach_exN3).2.1 okStopEnvNative 0 (by decide)
  exact ⟨by decide, h.1, h.2⟩

end Holocron
